import Mathlib

/-!
Shallow embedding of the QT CPU emulator (source/qt_emulator.py).

Registers and memory cells are numpy uint16 values; arithmetic on them wraps
modulo 2^16, which the embedding makes explicit with the u16 / sub16 helpers.
Intermediate 32-bit temporaries (numpy uint32) wrap modulo 2^32; in particular
a uint32 difference is itself an unsigned, hence non-negative, number, so the
source comparisons of such a difference against zero are embedded exactly as
written.  Shift counts at or above the word width are undefined behaviour in
the numpy backend, so theorems about shift or rotate instructions keep the
count below 16.  Memory arrays are total functions from addresses to cell
values; every index the emulator uses is a uint16 and therefore already within
the 65536-cell bounds of the numpy arrays.
-/

namespace QTEmu

/-- Reduction modulo 2^16: the effect of storing a value into a numpy uint16
register or memory cell. -/
def u16 (n : Nat) : Nat := n % 65536

/-- Reduction modulo 2^32: the effect of numpy uint32 arithmetic. -/
def u32 (n : Nat) : Nat := n % 4294967296

/-- Wrapping 16-bit subtraction, the value of a numpy uint16 difference. -/
def sub16 (a b : Nat) : Nat := (a % 65536 + 65536 - b % 65536) % 65536

/-- Wrapping 32-bit subtraction, the value of a numpy uint32 difference. -/
def sub32 (a b : Nat) : Nat :=
  (a % 4294967296 + 4294967296 - b % 4294967296) % 4294967296

/-- Pointwise update of a memory array at one address. -/
def upd (f : Nat → Nat) (i v : Nat) : Nat → Nat :=
  fun j => if j = i then v else f j

/-- The full mutable state of QTEmulator: the five memory arrays, the register
file, and the bookkeeping fields of the run loop. -/
structure State where
  rom : Nat → Nat
  cache : Nat → Nat
  stack : Nat → Nat
  address_stack : Nat → Nat
  ports : Nat → Nat
  accumulator : Nat
  pointer_register : Nat
  program_counter : Nat
  flag_register : Nat
  stack_pointer : Nat
  address_stack_pointer : Nat
  instructions_executed : Nat
  running : Bool
  exit_code : Int

/-- FLAG_MAPPING: bit index of the carry flag. -/
def carryBit : Nat := 0

/-- FLAG_MAPPING: bit index of the parity flag. -/
def parityBit : Nat := 1

/-- FLAG_MAPPING: bit index of the zero flag. -/
def zeroBit : Nat := 2

/-- FLAG_MAPPING: bit index of the sign flag. -/
def signBit : Nat := 3

/-- FLAG_MAPPING: bit index of the overflow flag. -/
def overflowBit : Nat := 4

/-- FLAG_MAPPING: bit index of the underflow flag. -/
def underflowBit : Nat := 5

/-- QTEmulator._set_flag: set or clear one bit of the flag register.  Clearing
ands with the uint16 complement of the mask, written 65535 xor mask. -/
def setFlag (bit : Nat) (value : Bool) (flags : Nat) : Nat :=
  if value then flags ||| (1 <<< bit) else flags &&& (65535 ^^^ (1 <<< bit))

/-- QTEmulator._get_flag: a flag bit read as a strict positivity test. -/
def getFlag (bit : Nat) (s : State) : Bool :=
  decide (s.flag_register &&& (1 <<< bit) > 0)

/-- QTEmulator._check_flags, parity part: the shift-xor fold of the
accumulator whose low bit the parity flag receives. -/
def parShiftFold (a : Nat) : Nat :=
  let par0 := a ^^^ (a >>> 1)
  let par1 := par0 ^^^ (par0 >>> 2)
  let par2 := par1 ^^^ (par1 >>> 4)
  par2 ^^^ (par2 >>> 8)

/-- QTEmulator._check_flags: recompute parity (by the shift-xor fold), zero
and sign from the accumulator; the other flag bits are left as they are. -/
def checkFlags (s : State) : State :=
  let a := s.accumulator
  let f1 := setFlag parityBit (decide (parShiftFold a &&& 1 ≠ 0)) s.flag_register
  let f2 := setFlag zeroBit (decide (a = 0)) f1
  let f3 := setFlag signBit (decide (a &&& 32768 > 0)) f2
  { s with flag_register := f3 }

/-- QTEmulator._unknown_instruction_halt: trap handler for unregistered
opcodes. -/
def unknownInstructionHalt (s : State) : State :=
  { s with running := false, exit_code := -1 }

/-- Opcode 0, nop: do nothing. -/
def i000_nop (_value : Nat) (s : State) : State := s

/-- Opcode 1, load: ACC gets the bus value. -/
def i001_load (value : Nat) (s : State) : State :=
  { s with accumulator := u16 value }

/-- Opcode 2, store: cache at the bus value gets ACC. -/
def i002_store (value : Nat) (s : State) : State :=
  { s with cache := upd s.cache (u16 value) (u16 s.accumulator) }

/-- Opcode 3, loadp: ACC gets the cache cell addressed by ACC. -/
def i003_loadp (_value : Nat) (s : State) : State :=
  { s with accumulator := u16 (s.cache (u16 s.accumulator)) }

/-- Opcode 4, loadpr: PR gets the bus value. -/
def i004_loadpr (value : Nat) (s : State) : State :=
  { s with pointer_register := u16 value }

/-- Opcode 5, storep: cache at PR gets ACC. -/
def i005_storep (_value : Nat) (s : State) : State :=
  { s with cache := upd s.cache (u16 s.pointer_register) (u16 s.accumulator) }

/-- Opcode 6, tapr: PR gets ACC. -/
def i006_tapr (_value : Nat) (s : State) : State :=
  { s with pointer_register := u16 s.accumulator }

/-- Opcode 7, push: write ACC at the stack pointer, then increment it. -/
def i007_push (_value : Nat) (s : State) : State :=
  { s with stack := upd s.stack (u16 s.stack_pointer) (u16 s.accumulator),
           stack_pointer := u16 (s.stack_pointer + 1) }

/-- Opcode 8, pop: decrement the stack pointer, then read ACC from it. -/
def i008_pop (_value : Nat) (s : State) : State :=
  let sp := sub16 s.stack_pointer 1
  { s with stack_pointer := sp, accumulator := u16 (s.stack sp) }

/-- Opcode 9, call: push the program counter on the address stack and jump to
the bus value minus one (the run loop increments the counter afterwards). -/
def i009_call (value : Nat) (s : State) : State :=
  { s with
      address_stack :=
        upd s.address_stack (u16 s.address_stack_pointer) (u16 s.program_counter),
      address_stack_pointer := u16 (s.address_stack_pointer + 1),
      program_counter := sub16 value 1 }

/-- Opcode 10, return: pop the address stack into the program counter. -/
def i010_return (_value : Nat) (s : State) : State :=
  let asp := sub16 s.address_stack_pointer 1
  { s with address_stack_pointer := asp,
           program_counter := u16 (s.address_stack asp) }

/-- Opcode 11, jump: program counter gets the bus value minus one. -/
def i011_jump (value : Nat) (s : State) : State :=
  { s with program_counter := sub16 value 1 }

/-- Opcode 12, jumpc: if any flag selected by the bus bitmask is set, jump to
PR minus one. -/
def i012_jumpc (value : Nat) (s : State) : State :=
  let condition :=
    (List.range 16).any fun x => decide (value &&& (1 <<< x) ≠ 0) && getFlag x s
  if condition then { s with program_counter := sub16 s.pointer_register 1 }
  else s

/-- Opcode 13, clf: the whole flag register is zeroed. -/
def i013_clf (_value : Nat) (s : State) : State :=
  { s with flag_register := 0 }

/-- Opcode 16, and: bitwise and of ACC with the bus value. -/
def i016_and (value : Nat) (s : State) : State :=
  { s with accumulator := u16 (s.accumulator &&& value) }

/-- Opcode 17, or: bitwise or of ACC with the bus value. -/
def i017_or (value : Nat) (s : State) : State :=
  { s with accumulator := u16 (s.accumulator ||| value) }

/-- Opcode 18, xor: bitwise xor of ACC with the bus value. -/
def i018_xor (value : Nat) (s : State) : State :=
  { s with accumulator := u16 (s.accumulator ^^^ value) }

/-- Opcode 19, lsl: overflow flag gets the top bit of ACC, then ACC is shifted
left by the bus value. -/
def i019_lsl (value : Nat) (s : State) : State :=
  { s with
      flag_register :=
        setFlag overflowBit (decide (s.accumulator >>> 15 ≠ 0)) s.flag_register,
      accumulator := u16 (s.accumulator <<< value) }

/-- Opcode 20, lsr: underflow flag gets bit 0 of ACC, then ACC is shifted
right by the bus value. -/
def i020_lsr (value : Nat) (s : State) : State :=
  { s with
      flag_register :=
        setFlag underflowBit (decide ((s.accumulator &&& 1) <<< 15 ≠ 0))
          s.flag_register,
      accumulator := u16 (s.accumulator >>> value) }

/-- Opcode 21, rol: ACC becomes ACC shifted left by the bus value plus the old
top bit of ACC, wrapped to 16 bits. -/
def i021_rol (value : Nat) (s : State) : State :=
  { s with
      accumulator := u16 ((s.accumulator <<< value) + (s.accumulator >>> 15)) }

/-- Opcode 22, ror: ACC becomes ACC shifted right by the bus value plus the
old bit 0 of ACC moved to bit 15. -/
def i022_ror (value : Nat) (s : State) : State :=
  { s with
      accumulator :=
        u16 ((s.accumulator >>> value) + ((s.accumulator &&& 1) <<< 15)) }

/-- Opcode 23, comp: ACC becomes 65535, 0 or 1 comparing ACC with the bus. -/
def i023_comp (value : Nat) (s : State) : State :=
  { s with
      accumulator :=
        if s.accumulator < value then 65535
        else if s.accumulator = value then 0
        else 1 }

/-- Opcode 32, add: carry flag records whether the uint32 sum exceeds 65535;
ACC gets the wrapped 16-bit sum. -/
def i032_add (value : Nat) (s : State) : State :=
  { s with
      flag_register :=
        setFlag carryBit (decide (u32 (s.accumulator + value) > 65535))
          s.flag_register,
      accumulator := u16 (s.accumulator + value) }

/-- Opcode 33, sub: the carry condition compares the wrapped uint32 difference
against zero, exactly as the source does; ACC gets the wrapped 16-bit
difference. -/
def i033_sub (value : Nat) (s : State) : State :=
  { s with
      flag_register :=
        setFlag carryBit (decide (sub32 s.accumulator value < 0))
          s.flag_register,
      accumulator := sub16 s.accumulator value }

/-- Opcode 34, addc: uint32 sum of ACC, the bus value and the carry flag;
carry records whether it exceeds 65535 and ACC gets its low 16 bits. -/
def i034_addc (value : Nat) (s : State) : State :=
  let result := u32 (s.accumulator + value + (getFlag carryBit s).toNat)
  { s with
      flag_register := setFlag carryBit (decide (result > 65535)) s.flag_register,
      accumulator := u16 (result &&& 65535) }

/-- Opcode 35, subc: uint32 difference of ACC, the bus value and the carry
flag; the carry condition compares that wrapped difference against zero,
exactly as the source does, and ACC gets its low 16 bits. -/
def i035_subc (value : Nat) (s : State) : State :=
  let result := sub32 (sub32 s.accumulator value) (getFlag carryBit s).toNat
  { s with
      flag_register := setFlag carryBit (decide (result < 0)) s.flag_register,
      accumulator := u16 (result &&& 65535) }

/-- Opcode 36, inc: carry records whether the uint32 value of ACC plus one
exceeds 65535; ACC gets the wrapped 16-bit successor. -/
def i036_inc (_value : Nat) (s : State) : State :=
  { s with
      flag_register :=
        setFlag carryBit (decide (u32 (s.accumulator + 1) > 65535))
          s.flag_register,
      accumulator := u16 (s.accumulator + 1) }

/-- Opcode 37, dec: the carry condition compares the wrapped uint32 value of
ACC minus one against zero, exactly as the source does; ACC gets the wrapped
16-bit predecessor. -/
def i037_dec (_value : Nat) (s : State) : State :=
  { s with
      flag_register :=
        setFlag carryBit (decide (sub32 s.accumulator 1 < 0)) s.flag_register,
      accumulator := sub16 s.accumulator 1 }

/-- Opcode 38, mul: overflow records whether the uint32 product exceeds 65535;
ACC gets the wrapped 16-bit product. -/
def i038_mul (value : Nat) (s : State) : State :=
  { s with
      flag_register :=
        setFlag overflowBit (decide (u32 (s.accumulator * value) > 65535))
          s.flag_register,
      accumulator := u16 (s.accumulator * value) }

/-- Opcode 39, div: floor division of ACC by the bus value; numpy integer
division by zero yields zero, which Nat division also does. -/
def i039_div (value : Nat) (s : State) : State :=
  { s with accumulator := u16 (s.accumulator / value) }

/-- Opcode 40, mod: remainder of ACC by the bus value; numpy remainder by
zero yields zero, made explicit here. -/
def i040_mod (value : Nat) (s : State) : State :=
  { s with
      accumulator := u16 (if value = 0 then 0 else s.accumulator % value) }

/-- Opcode 96, portw: the port at the bus value gets ACC. -/
def i096_portw (value : Nat) (s : State) : State :=
  { s with ports := upd s.ports (u16 value) (u16 s.accumulator) }

/-- Opcode 97, portr: ACC gets the port at the bus value. -/
def i097_portr (value : Nat) (s : State) : State :=
  { s with accumulator := u16 (s.ports (u16 value)) }

/-- Opcode 126, int: stop running with the bus value as exit code. -/
def i126_int (value : Nat) (s : State) : State :=
  { s with running := false, exit_code := (u16 value : Int) }

/-- Opcode 127, halt: stop running with exit code zero. -/
def i127_halt (_value : Nat) (s : State) : State :=
  { s with running := false, exit_code := 0 }

/-- QTEmulator._make_instruction_lookup: the 128-slot dispatch table.  The
slots carrying a handler are exactly the methods whose docstring marks them as
instruction calls; every other slot keeps the trap default, modelled here as
none. -/
def instructionLookup (op : Nat) : Option (Nat → State → State) :=
  if op = 0 then some i000_nop
  else if op = 1 then some i001_load
  else if op = 2 then some i002_store
  else if op = 3 then some i003_loadp
  else if op = 4 then some i004_loadpr
  else if op = 5 then some i005_storep
  else if op = 6 then some i006_tapr
  else if op = 7 then some i007_push
  else if op = 8 then some i008_pop
  else if op = 9 then some i009_call
  else if op = 10 then some i010_return
  else if op = 11 then some i011_jump
  else if op = 12 then some i012_jumpc
  else if op = 13 then some i013_clf
  else if op = 16 then some i016_and
  else if op = 17 then some i017_or
  else if op = 18 then some i018_xor
  else if op = 19 then some i019_lsl
  else if op = 20 then some i020_lsr
  else if op = 21 then some i021_rol
  else if op = 22 then some i022_ror
  else if op = 23 then some i023_comp
  else if op = 32 then some i032_add
  else if op = 33 then some i033_sub
  else if op = 34 then some i034_addc
  else if op = 35 then some i035_subc
  else if op = 36 then some i036_inc
  else if op = 37 then some i037_dec
  else if op = 38 then some i038_mul
  else if op = 39 then some i039_div
  else if op = 40 then some i040_mod
  else if op = 96 then some i096_portw
  else if op = 97 then some i097_portr
  else if op = 126 then some i126_int
  else if op = 127 then some i127_halt
  else none

/-- Invoke the table entry for an opcode, falling through to the trap handler
on an unpopulated slot. -/
def dispatch (opcode value : Nat) (s : State) : State :=
  match instructionLookup opcode with
  | some handler => handler value s
  | none => unknownInstructionHalt s

/-- Fetch: the memory-indirection flag of a stored word, cast to uint8. -/
def decodeFlag (word : Nat) : Nat := (word >>> 23) % 256

/-- Fetch: the value field of a stored word, cast to uint16. -/
def decodeValue (word : Nat) : Nat := (word >>> 7) % 65536

/-- Fetch: the opcode field of a stored word, the low seven bits. -/
def decodeOpcode (word : Nat) : Nat := word &&& 127

/-- The ROM word at the current program counter. -/
def fetchWord (s : State) : Nat := s.rom (u16 s.program_counter)

/-- Bus resolution: the cache cell at the value field when the memory flag of
the fetched word is set, the value field itself otherwise. -/
def busOf (s : State) : Nat :=
  if decodeFlag (fetchWord s) ≠ 0 then s.cache (decodeValue (fetchWord s))
  else decodeValue (fetchWord s)

/-- The state right after dispatching the fetched instruction. -/
def dispatched (s : State) : State :=
  dispatch (decodeOpcode (fetchWord s)) (busOf s) s

/-- One iteration of the run loop: fetch, decode, resolve the bus, dispatch,
count the instruction, refresh the flags, advance the program counter. -/
def step (s : State) : State :=
  let s1 := dispatched s
  let s2 := { s1 with instructions_executed := s1.instructions_executed + 1 }
  let s3 := checkFlags s2
  { s3 with program_counter := u16 (s3.program_counter + 1) }

/-- Iterate the run-loop body a given number of times. -/
def stepN : Nat → State → State
  | 0, s => s
  | n + 1, s => stepN n (step s)

/-- QTEmulator.run with explicit fuel: iterate the loop body while running. -/
def runFuel : Nat → State → State
  | 0, s => s
  | n + 1, s => if s.running then runFuel n (step s) else s

/-- A freshly constructed emulator after initialize_memory: zeroed registers
and memory arrays, with the given ROM contents. -/
def initState (rom : Nat → Nat) : State :=
  { rom := rom
    cache := fun _ => 0
    stack := fun _ => 0
    address_stack := fun _ => 0
    ports := fun _ => 0
    accumulator := 0
    pointer_register := 0
    program_counter := 0
    flag_register := 0
    stack_pointer := 0
    address_stack_pointer := 0
    instructions_executed := 0
    running := true
    exit_code := 0 }

/-- QTEmulator.import_code: pack one instruction triple into a 32-bit ROM
word. -/
def encode (memory_flag value opcode : Nat) : Nat :=
  ((memory_flag <<< 23) + (value <<< 7) + opcode) % 4294967296

/-- Modelled from the spec: the 16-bit left circular rotation by b positions,
the behaviour the specification ascribes to rol. -/
def specRotl16 (b a : Nat) : Nat := ((a <<< b) % 65536) ||| (a >>> (16 - b))

/-- Modelled from the spec: the 16-bit right circular rotation by b positions,
the behaviour the specification ascribes to ror. -/
def specRotr16 (b a : Nat) : Nat := (a >>> b) ||| ((a <<< (16 - b)) % 65536)

/-- Modelled from the spec: parity as the XOR-fold of all 16 accumulator
bits. -/
def specParity16 (a : Nat) : Bool :=
  (List.range 16).foldl (fun p i => p ^^ a.testBit i) false

/-- A zero-initialized emulator with an all-zero ROM, the base point of the
concrete evaluations below. -/
def st0 : State := initState (fun _ => 0)

/-- A concrete machine for the call/return scenario: a call to address 10 in
ROM slot 3, a return in ROM slot 10, program counter at 3. -/
def stCallRet : State :=
  { initState
      (fun i => if i = 3 then encode 0 10 9 else if i = 10 then encode 0 0 10 else 0)
    with program_counter := 3 }

/-- A concrete machine whose every ROM word decodes to the unregistered
opcode 63. -/
def stUnknown : State := initState (fun _ => 63)

end QTEmu

namespace QTEmu

lemma u16_lt (n : Nat) : u16 n < 65536 := Nat.mod_lt _ (by norm_num)

lemma and_mod_128 (n : Nat) : n &&& 127 = n % 128 := by
  have h : (127 : Nat) = 2 ^ 7 - 1 := by norm_num
  rw [h, Nat.and_pow_two_sub_one_eq_mod]

lemma testBit_setFlag (bit j : Nat) (b : Bool) (flags : Nat) (hj : j < 16) :
    (setFlag bit b flags).testBit j = if j = bit then b else flags.testBit j := by
  have h65535 : (65535 : Nat) = 2 ^ 16 - 1 := by norm_num
  cases b with
  | true =>
    simp only [setFlag, if_true]
    rw [Nat.testBit_or, Nat.shiftLeft_eq, one_mul, Nat.testBit_two_pow]
    by_cases h : j = bit
    · subst h; simp
    · simp [h, Ne.symm h]
  | false =>
    simp only [setFlag, Bool.false_eq_true, if_false]
    rw [Nat.testBit_and, Nat.testBit_xor, h65535, Nat.testBit_two_pow_sub_one,
      Nat.shiftLeft_eq, one_mul, Nat.testBit_two_pow]
    by_cases h : j = bit
    · subst h; simp [hj]
    · simp [h, Ne.symm h, hj]

lemma setFlag_lt_64 (bit : Nat) (b : Bool) (flags : Nat) (hbit : bit < 6)
    (hf : flags < 64) : setFlag bit b flags < 64 := by
  cases b with
  | true =>
    simp only [setFlag, if_true]
    have h1 : (1 <<< bit) < 64 := by
      rw [Nat.shiftLeft_eq, one_mul]
      calc 2 ^ bit < 2 ^ 6 := Nat.pow_lt_pow_right (by norm_num) hbit
        _ = 64 := by norm_num
    have h2 : flags < 2 ^ 6 := by norm_num; omega
    have h3 : (1 <<< bit) < 2 ^ 6 := by norm_num; omega
    have := Nat.or_lt_two_pow h2 h3
    norm_num at this
    exact this
  | false =>
    simp only [setFlag, Bool.false_eq_true, if_false]
    exact lt_of_le_of_lt Nat.and_le_left hf

lemma encode_decode (f v o : Nat) (hf : f ≤ 1) (hv : v < 65536) (ho : o < 128) :
    decodeFlag (encode f v o) = f ∧ decodeValue (encode f v o) = v ∧
      decodeOpcode (encode f v o) = o := by
  unfold encode decodeFlag decodeValue decodeOpcode
  simp only [Nat.shiftLeft_eq, Nat.shiftRight_eq_div_pow, and_mod_128]
  norm_num
  refine ⟨by omega, by omega, by omega⟩

lemma dispatch_executed (op v : Nat) (t : State) :
    (dispatch op v t).instructions_executed = t.instructions_executed := by
  by_cases h0 : op = 0
  · subst h0
    have e : dispatch 0 v t = i000_nop v t := by
      simp [dispatch, instructionLookup]
    rw [e]
    dsimp only [i000_nop]
  by_cases h1 : op = 1
  · subst h1
    have e : dispatch 1 v t = i001_load v t := by
      simp [dispatch, instructionLookup]
    rw [e]
    dsimp only [i001_load]
  by_cases h2 : op = 2
  · subst h2
    have e : dispatch 2 v t = i002_store v t := by
      simp [dispatch, instructionLookup]
    rw [e]
    dsimp only [i002_store]
  by_cases h3 : op = 3
  · subst h3
    have e : dispatch 3 v t = i003_loadp v t := by
      simp [dispatch, instructionLookup]
    rw [e]
    dsimp only [i003_loadp]
  by_cases h4 : op = 4
  · subst h4
    have e : dispatch 4 v t = i004_loadpr v t := by
      simp [dispatch, instructionLookup]
    rw [e]
    dsimp only [i004_loadpr]
  by_cases h5 : op = 5
  · subst h5
    have e : dispatch 5 v t = i005_storep v t := by
      simp [dispatch, instructionLookup]
    rw [e]
    dsimp only [i005_storep]
  by_cases h6 : op = 6
  · subst h6
    have e : dispatch 6 v t = i006_tapr v t := by
      simp [dispatch, instructionLookup]
    rw [e]
    dsimp only [i006_tapr]
  by_cases h7 : op = 7
  · subst h7
    have e : dispatch 7 v t = i007_push v t := by
      simp [dispatch, instructionLookup]
    rw [e]
    dsimp only [i007_push]
  by_cases h8 : op = 8
  · subst h8
    have e : dispatch 8 v t = i008_pop v t := by
      simp [dispatch, instructionLookup]
    rw [e]
    dsimp only [i008_pop]
  by_cases h9 : op = 9
  · subst h9
    have e : dispatch 9 v t = i009_call v t := by
      simp [dispatch, instructionLookup]
    rw [e]
    dsimp only [i009_call]
  by_cases h10 : op = 10
  · subst h10
    have e : dispatch 10 v t = i010_return v t := by
      simp [dispatch, instructionLookup]
    rw [e]
    dsimp only [i010_return]
  by_cases h11 : op = 11
  · subst h11
    have e : dispatch 11 v t = i011_jump v t := by
      simp [dispatch, instructionLookup]
    rw [e]
    dsimp only [i011_jump]
  by_cases h12 : op = 12
  · subst h12
    have e : dispatch 12 v t = i012_jumpc v t := by
      simp [dispatch, instructionLookup]
    rw [e]
    dsimp only [i012_jumpc]
    split <;> rfl
  by_cases h13 : op = 13
  · subst h13
    have e : dispatch 13 v t = i013_clf v t := by
      simp [dispatch, instructionLookup]
    rw [e]
    dsimp only [i013_clf]
  by_cases h16 : op = 16
  · subst h16
    have e : dispatch 16 v t = i016_and v t := by
      simp [dispatch, instructionLookup]
    rw [e]
    dsimp only [i016_and]
  by_cases h17 : op = 17
  · subst h17
    have e : dispatch 17 v t = i017_or v t := by
      simp [dispatch, instructionLookup]
    rw [e]
    dsimp only [i017_or]
  by_cases h18 : op = 18
  · subst h18
    have e : dispatch 18 v t = i018_xor v t := by
      simp [dispatch, instructionLookup]
    rw [e]
    dsimp only [i018_xor]
  by_cases h19 : op = 19
  · subst h19
    have e : dispatch 19 v t = i019_lsl v t := by
      simp [dispatch, instructionLookup]
    rw [e]
    dsimp only [i019_lsl]
  by_cases h20 : op = 20
  · subst h20
    have e : dispatch 20 v t = i020_lsr v t := by
      simp [dispatch, instructionLookup]
    rw [e]
    dsimp only [i020_lsr]
  by_cases h21 : op = 21
  · subst h21
    have e : dispatch 21 v t = i021_rol v t := by
      simp [dispatch, instructionLookup]
    rw [e]
    dsimp only [i021_rol]
  by_cases h22 : op = 22
  · subst h22
    have e : dispatch 22 v t = i022_ror v t := by
      simp [dispatch, instructionLookup]
    rw [e]
    dsimp only [i022_ror]
  by_cases h23 : op = 23
  · subst h23
    have e : dispatch 23 v t = i023_comp v t := by
      simp [dispatch, instructionLookup]
    rw [e]
    dsimp only [i023_comp]
  by_cases h32 : op = 32
  · subst h32
    have e : dispatch 32 v t = i032_add v t := by
      simp [dispatch, instructionLookup]
    rw [e]
    dsimp only [i032_add]
  by_cases h33 : op = 33
  · subst h33
    have e : dispatch 33 v t = i033_sub v t := by
      simp [dispatch, instructionLookup]
    rw [e]
    dsimp only [i033_sub]
  by_cases h34 : op = 34
  · subst h34
    have e : dispatch 34 v t = i034_addc v t := by
      simp [dispatch, instructionLookup]
    rw [e]
    dsimp only [i034_addc]
  by_cases h35 : op = 35
  · subst h35
    have e : dispatch 35 v t = i035_subc v t := by
      simp [dispatch, instructionLookup]
    rw [e]
    dsimp only [i035_subc]
  by_cases h36 : op = 36
  · subst h36
    have e : dispatch 36 v t = i036_inc v t := by
      simp [dispatch, instructionLookup]
    rw [e]
    dsimp only [i036_inc]
  by_cases h37 : op = 37
  · subst h37
    have e : dispatch 37 v t = i037_dec v t := by
      simp [dispatch, instructionLookup]
    rw [e]
    dsimp only [i037_dec]
  by_cases h38 : op = 38
  · subst h38
    have e : dispatch 38 v t = i038_mul v t := by
      simp [dispatch, instructionLookup]
    rw [e]
    dsimp only [i038_mul]
  by_cases h39 : op = 39
  · subst h39
    have e : dispatch 39 v t = i039_div v t := by
      simp [dispatch, instructionLookup]
    rw [e]
    dsimp only [i039_div]
  by_cases h40 : op = 40
  · subst h40
    have e : dispatch 40 v t = i040_mod v t := by
      simp [dispatch, instructionLookup]
    rw [e]
    dsimp only [i040_mod]
  by_cases h96 : op = 96
  · subst h96
    have e : dispatch 96 v t = i096_portw v t := by
      simp [dispatch, instructionLookup]
    rw [e]
    dsimp only [i096_portw]
  by_cases h97 : op = 97
  · subst h97
    have e : dispatch 97 v t = i097_portr v t := by
      simp [dispatch, instructionLookup]
    rw [e]
    dsimp only [i097_portr]
  by_cases h126 : op = 126
  · subst h126
    have e : dispatch 126 v t = i126_int v t := by
      simp [dispatch, instructionLookup]
    rw [e]
    dsimp only [i126_int]
  by_cases h127 : op = 127
  · subst h127
    have e : dispatch 127 v t = i127_halt v t := by
      simp [dispatch, instructionLookup]
    rw [e]
    dsimp only [i127_halt]
  have hl : instructionLookup op = none := by
    unfold instructionLookup
    rw [if_neg h0, if_neg h1, if_neg h2, if_neg h3, if_neg h4, if_neg h5, if_neg h6, if_neg h7, if_neg h8, if_neg h9, if_neg h10, if_neg h11, if_neg h12, if_neg h13, if_neg h16, if_neg h17, if_neg h18, if_neg h19, if_neg h20, if_neg h21, if_neg h22, if_neg h23, if_neg h32, if_neg h33, if_neg h34, if_neg h35, if_neg h36, if_neg h37, if_neg h38, if_neg h39, if_neg h40, if_neg h96, if_neg h97, if_neg h126, if_neg h127]
  unfold dispatch
  rw [hl]
  rfl

lemma dispatch_flags_lt (op v : Nat) (t : State) (hf : t.flag_register < 64) :
    (dispatch op v t).flag_register < 64 := by
  by_cases h0 : op = 0
  · subst h0
    have e : dispatch 0 v t = i000_nop v t := by
      simp [dispatch, instructionLookup]
    rw [e]
    dsimp only [i000_nop]
    exact hf
  by_cases h1 : op = 1
  · subst h1
    have e : dispatch 1 v t = i001_load v t := by
      simp [dispatch, instructionLookup]
    rw [e]
    dsimp only [i001_load]
    exact hf
  by_cases h2 : op = 2
  · subst h2
    have e : dispatch 2 v t = i002_store v t := by
      simp [dispatch, instructionLookup]
    rw [e]
    dsimp only [i002_store]
    exact hf
  by_cases h3 : op = 3
  · subst h3
    have e : dispatch 3 v t = i003_loadp v t := by
      simp [dispatch, instructionLookup]
    rw [e]
    dsimp only [i003_loadp]
    exact hf
  by_cases h4 : op = 4
  · subst h4
    have e : dispatch 4 v t = i004_loadpr v t := by
      simp [dispatch, instructionLookup]
    rw [e]
    dsimp only [i004_loadpr]
    exact hf
  by_cases h5 : op = 5
  · subst h5
    have e : dispatch 5 v t = i005_storep v t := by
      simp [dispatch, instructionLookup]
    rw [e]
    dsimp only [i005_storep]
    exact hf
  by_cases h6 : op = 6
  · subst h6
    have e : dispatch 6 v t = i006_tapr v t := by
      simp [dispatch, instructionLookup]
    rw [e]
    dsimp only [i006_tapr]
    exact hf
  by_cases h7 : op = 7
  · subst h7
    have e : dispatch 7 v t = i007_push v t := by
      simp [dispatch, instructionLookup]
    rw [e]
    dsimp only [i007_push]
    exact hf
  by_cases h8 : op = 8
  · subst h8
    have e : dispatch 8 v t = i008_pop v t := by
      simp [dispatch, instructionLookup]
    rw [e]
    dsimp only [i008_pop]
    exact hf
  by_cases h9 : op = 9
  · subst h9
    have e : dispatch 9 v t = i009_call v t := by
      simp [dispatch, instructionLookup]
    rw [e]
    dsimp only [i009_call]
    exact hf
  by_cases h10 : op = 10
  · subst h10
    have e : dispatch 10 v t = i010_return v t := by
      simp [dispatch, instructionLookup]
    rw [e]
    dsimp only [i010_return]
    exact hf
  by_cases h11 : op = 11
  · subst h11
    have e : dispatch 11 v t = i011_jump v t := by
      simp [dispatch, instructionLookup]
    rw [e]
    dsimp only [i011_jump]
    exact hf
  by_cases h12 : op = 12
  · subst h12
    have e : dispatch 12 v t = i012_jumpc v t := by
      simp [dispatch, instructionLookup]
    rw [e]
    dsimp only [i012_jumpc]
    split <;> exact hf
  by_cases h13 : op = 13
  · subst h13
    have e : dispatch 13 v t = i013_clf v t := by
      simp [dispatch, instructionLookup]
    rw [e]
    dsimp only [i013_clf]
    norm_num
  by_cases h16 : op = 16
  · subst h16
    have e : dispatch 16 v t = i016_and v t := by
      simp [dispatch, instructionLookup]
    rw [e]
    dsimp only [i016_and]
    exact hf
  by_cases h17 : op = 17
  · subst h17
    have e : dispatch 17 v t = i017_or v t := by
      simp [dispatch, instructionLookup]
    rw [e]
    dsimp only [i017_or]
    exact hf
  by_cases h18 : op = 18
  · subst h18
    have e : dispatch 18 v t = i018_xor v t := by
      simp [dispatch, instructionLookup]
    rw [e]
    dsimp only [i018_xor]
    exact hf
  by_cases h19 : op = 19
  · subst h19
    have e : dispatch 19 v t = i019_lsl v t := by
      simp [dispatch, instructionLookup]
    rw [e]
    dsimp only [i019_lsl]
    exact setFlag_lt_64 _ _ _ (by decide) hf
  by_cases h20 : op = 20
  · subst h20
    have e : dispatch 20 v t = i020_lsr v t := by
      simp [dispatch, instructionLookup]
    rw [e]
    dsimp only [i020_lsr]
    exact setFlag_lt_64 _ _ _ (by decide) hf
  by_cases h21 : op = 21
  · subst h21
    have e : dispatch 21 v t = i021_rol v t := by
      simp [dispatch, instructionLookup]
    rw [e]
    dsimp only [i021_rol]
    exact hf
  by_cases h22 : op = 22
  · subst h22
    have e : dispatch 22 v t = i022_ror v t := by
      simp [dispatch, instructionLookup]
    rw [e]
    dsimp only [i022_ror]
    exact hf
  by_cases h23 : op = 23
  · subst h23
    have e : dispatch 23 v t = i023_comp v t := by
      simp [dispatch, instructionLookup]
    rw [e]
    dsimp only [i023_comp]
    exact hf
  by_cases h32 : op = 32
  · subst h32
    have e : dispatch 32 v t = i032_add v t := by
      simp [dispatch, instructionLookup]
    rw [e]
    dsimp only [i032_add]
    exact setFlag_lt_64 _ _ _ (by decide) hf
  by_cases h33 : op = 33
  · subst h33
    have e : dispatch 33 v t = i033_sub v t := by
      simp [dispatch, instructionLookup]
    rw [e]
    dsimp only [i033_sub]
    exact setFlag_lt_64 _ _ _ (by decide) hf
  by_cases h34 : op = 34
  · subst h34
    have e : dispatch 34 v t = i034_addc v t := by
      simp [dispatch, instructionLookup]
    rw [e]
    dsimp only [i034_addc]
    exact setFlag_lt_64 _ _ _ (by decide) hf
  by_cases h35 : op = 35
  · subst h35
    have e : dispatch 35 v t = i035_subc v t := by
      simp [dispatch, instructionLookup]
    rw [e]
    dsimp only [i035_subc]
    exact setFlag_lt_64 _ _ _ (by decide) hf
  by_cases h36 : op = 36
  · subst h36
    have e : dispatch 36 v t = i036_inc v t := by
      simp [dispatch, instructionLookup]
    rw [e]
    dsimp only [i036_inc]
    exact setFlag_lt_64 _ _ _ (by decide) hf
  by_cases h37 : op = 37
  · subst h37
    have e : dispatch 37 v t = i037_dec v t := by
      simp [dispatch, instructionLookup]
    rw [e]
    dsimp only [i037_dec]
    exact setFlag_lt_64 _ _ _ (by decide) hf
  by_cases h38 : op = 38
  · subst h38
    have e : dispatch 38 v t = i038_mul v t := by
      simp [dispatch, instructionLookup]
    rw [e]
    dsimp only [i038_mul]
    exact setFlag_lt_64 _ _ _ (by decide) hf
  by_cases h39 : op = 39
  · subst h39
    have e : dispatch 39 v t = i039_div v t := by
      simp [dispatch, instructionLookup]
    rw [e]
    dsimp only [i039_div]
    exact hf
  by_cases h40 : op = 40
  · subst h40
    have e : dispatch 40 v t = i040_mod v t := by
      simp [dispatch, instructionLookup]
    rw [e]
    dsimp only [i040_mod]
    exact hf
  by_cases h96 : op = 96
  · subst h96
    have e : dispatch 96 v t = i096_portw v t := by
      simp [dispatch, instructionLookup]
    rw [e]
    dsimp only [i096_portw]
    exact hf
  by_cases h97 : op = 97
  · subst h97
    have e : dispatch 97 v t = i097_portr v t := by
      simp [dispatch, instructionLookup]
    rw [e]
    dsimp only [i097_portr]
    exact hf
  by_cases h126 : op = 126
  · subst h126
    have e : dispatch 126 v t = i126_int v t := by
      simp [dispatch, instructionLookup]
    rw [e]
    dsimp only [i126_int]
    exact hf
  by_cases h127 : op = 127
  · subst h127
    have e : dispatch 127 v t = i127_halt v t := by
      simp [dispatch, instructionLookup]
    rw [e]
    dsimp only [i127_halt]
    exact hf
  have hl : instructionLookup op = none := by
    unfold instructionLookup
    rw [if_neg h0, if_neg h1, if_neg h2, if_neg h3, if_neg h4, if_neg h5, if_neg h6, if_neg h7, if_neg h8, if_neg h9, if_neg h10, if_neg h11, if_neg h12, if_neg h13, if_neg h16, if_neg h17, if_neg h18, if_neg h19, if_neg h20, if_neg h21, if_neg h22, if_neg h23, if_neg h32, if_neg h33, if_neg h34, if_neg h35, if_neg h36, if_neg h37, if_neg h38, if_neg h39, if_neg h40, if_neg h96, if_neg h97, if_neg h126, if_neg h127]
  unfold dispatch
  rw [hl]
  exact hf

/-- C3: packing a valid (flag, value, opcode) triple into a ROM word as
import_code does and decoding that word as the fetch step of run does returns
exactly the original triple. -/
theorem C3_word_roundtrip (f v o : Nat) (hf : f ≤ 1) (hv : v < 65536)
    (ho : o < 128) :
    decodeFlag (encode f v o) = f ∧ decodeValue (encode f v o) = v ∧
      decodeOpcode (encode f v o) = o :=
  encode_decode f v o hf hv ho

/-- C3 witness: the round trip at the extreme triple (1, 65535, 127). -/
theorem C3_word_roundtrip_witness :
    decodeFlag (encode 1 65535 127) = 1 ∧ decodeValue (encode 1 65535 127) = 65535 ∧
      decodeOpcode (encode 1 65535 127) = 127 :=
  C3_word_roundtrip 1 65535 127 (by decide) (by decide) (by decide)

/-- C4: add leaves the wrapped 16-bit sum in the accumulator and sets the
carry flag exactly when the mathematical sum exceeds 65535. -/
theorem C4_add_carry (s : State) (v : Nat) (ha : s.accumulator < 65536)
    (hv : v < 65536) :
    (i032_add v s).accumulator = (s.accumulator + v) % 65536 ∧
      (i032_add v s).flag_register.testBit 0 =
        decide (s.accumulator + v > 65535) := by
  refine ⟨rfl, ?_⟩
  show (setFlag carryBit _ s.flag_register).testBit 0 = _
  rw [testBit_setFlag _ _ _ _ (by norm_num)]
  have h : u32 (s.accumulator + v) = s.accumulator + v := by
    unfold u32; omega
  simp [carryBit, h]

/-- C4 witness: ACC 60000 plus bus 10000 wraps to 4464 with carry set, and
ACC 100 plus bus 50 gives 150 with carry clear. -/
theorem C4_add_carry_witness :
    (i032_add 10000 { st0 with accumulator := 60000 }).accumulator = 4464 ∧
    (i032_add 10000 { st0 with accumulator := 60000 }).flag_register.testBit 0
      = true ∧
    (i032_add 50 { st0 with accumulator := 100 }).accumulator = 150 ∧
    (i032_add 50 { st0 with accumulator := 100 }).flag_register.testBit 0
      = false := by
  have h1 := C4_add_carry { st0 with accumulator := 60000 } 10000
    (by decide) (by decide)
  have h2 := C4_add_carry { st0 with accumulator := 100 } 50
    (by decide) (by decide)
  exact ⟨h1.1.trans (by norm_num), h1.2.trans (by norm_num),
    h2.1.trans (by norm_num), h2.2.trans (by norm_num)⟩

lemma two_mul_or_one (k : Nat) : (2 * k) ||| 1 = 2 * k + 1 := by
  apply Nat.eq_of_testBit_eq
  intro i
  cases i with
  | zero => simp [Nat.testBit_or, Nat.testBit_zero, Nat.mul_add_mod]
  | succ j =>
    rw [Nat.testBit_or, Nat.testBit_add_one, Nat.testBit_add_one,
      Nat.testBit_add_one]
    have h1 : (2 * k) / 2 = k := by omega
    have h2 : (2 * k + 1) / 2 = k := by omega
    have h3 : (1 : Nat) / 2 = 0 := by norm_num
    rw [h1, h2, h3]
    simp

lemma or_two_pow_eq_add (x n : Nat) (h : x < 2 ^ n) : x ||| 2 ^ n = x + 2 ^ n := by
  apply Nat.eq_of_testBit_eq
  intro i
  rw [Nat.testBit_or, Nat.testBit_two_pow, Nat.add_comm]
  rcases lt_trichotomy i n with hi | hi | hi
  · rw [Nat.testBit_two_pow_add_gt hi]
    simp [Nat.ne_of_gt hi]
  · subst hi
    rw [Nat.testBit_two_pow_add_eq]
    simp [Nat.testBit_lt_two_pow h]
  · have h1 : x.testBit i = false :=
      Nat.testBit_lt_two_pow (lt_trans h (Nat.pow_lt_pow_right (by norm_num) hi))
    have h2 : (2 ^ n + x).testBit i = false := by
      apply Nat.testBit_lt_two_pow
      calc 2 ^ n + x < 2 ^ (n + 1) := by omega
        _ ≤ 2 ^ i := Nat.pow_le_pow_right (by norm_num) hi
    simp [h1, h2, Nat.ne_of_lt hi]

lemma testBit0_setFlag_carry (c : Bool) (flags : Nat) (h : c = false) :
    (setFlag carryBit c flags).testBit 0 = false := by
  subst h
  rw [testBit_setFlag _ _ _ _ (by norm_num)]
  simp [carryBit]

/-- C1: contrary to the claim, the carry condition of sub, subc and dec
compares a wrapped unsigned 32-bit difference against zero, which never
holds, so all three instructions always clear the carry flag; at ACC = 0 with
bus 1 the mathematical difference is negative yet the carry flag reads false
(the accumulator itself does receive the wrapped result 65535). -/
theorem C1_sub_carry_never_set :
    (∀ (s : State) (v : Nat),
        (i033_sub v s).flag_register.testBit 0 = false ∧
        (i035_subc v s).flag_register.testBit 0 = false ∧
        (i037_dec v s).flag_register.testBit 0 = false) ∧
    (i033_sub 1 st0).accumulator = 65535 ∧
    (i033_sub 1 st0).flag_register.testBit 0 = false ∧
    (i037_dec 0 st0).flag_register.testBit 0 = false := by
  refine ⟨fun s v => ⟨?_, ?_, ?_⟩, by decide, by decide, by decide⟩
  · show (setFlag carryBit (decide (sub32 s.accumulator v < 0))
        s.flag_register).testBit 0 = false
    refine testBit0_setFlag_carry _ _ ?_
    rw [decide_eq_false_iff_not]
    exact Nat.not_lt_zero _
  · show (setFlag carryBit
        (decide (sub32 (sub32 s.accumulator v) (getFlag carryBit s).toNat < 0))
        s.flag_register).testBit 0 = false
    refine testBit0_setFlag_carry _ _ ?_
    rw [decide_eq_false_iff_not]
    exact Nat.not_lt_zero _
  · show (setFlag carryBit (decide (sub32 s.accumulator 1 < 0))
        s.flag_register).testBit 0 = false
    refine testBit0_setFlag_carry _ _ ?_
    rw [decide_eq_false_iff_not]
    exact Nat.not_lt_zero _

/-- C2 counterexample: rotating by two positions is not a circular rotation.
At ACC = 32768 the rol instruction with bus value 2 yields 1 while the 16-bit
left rotation by 2 yields 2; at ACC = 3 the ror instruction with bus value 2
yields 32768 while the right rotation by 2 yields 49152. -/
theorem C2_rotate_counterexample :
    (i021_rol 2 { st0 with accumulator := 32768 }).accumulator = 1 ∧
    specRotl16 2 ({ st0 with accumulator := 32768 } : State).accumulator = 2 ∧
    (i021_rol 2 { st0 with accumulator := 32768 }).accumulator ≠
      specRotl16 2 ({ st0 with accumulator := 32768 } : State).accumulator ∧
    (i022_ror 2 { st0 with accumulator := 3 }).accumulator = 32768 ∧
    specRotr16 2 ({ st0 with accumulator := 3 } : State).accumulator = 49152 ∧
    (i022_ror 2 { st0 with accumulator := 3 }).accumulator ≠
      specRotr16 2 ({ st0 with accumulator := 3 } : State).accumulator := by
  decide

/-- C2 amended: rol adds the wrapped left shift and the old top bit, ror adds
the wrapped right shift and the old bottom bit moved to the top, neither
touches the flag register, and for bus value 1 both coincide with the
one-position circular rotation. -/
theorem C2_rotate_by_one (s : State) (v : Nat) (ha : s.accumulator < 65536) :
    (i021_rol 1 s).accumulator = specRotl16 1 s.accumulator ∧
    (i022_ror 1 s).accumulator = specRotr16 1 s.accumulator ∧
    (i021_rol v s).flag_register = s.flag_register ∧
    (i022_ror v s).flag_register = s.flag_register := by
  refine ⟨?_, ?_, rfl, rfl⟩
  · show u16 ((s.accumulator <<< 1) + (s.accumulator >>> 15)) = _
    unfold specRotl16 u16
    rw [Nat.shiftLeft_eq, Nat.shiftRight_eq_div_pow]
    norm_num
    rcases Nat.lt_or_ge s.accumulator 32768 with h | h
    · rw [Nat.div_eq_of_lt h]
      simp
    · have h1 : s.accumulator / 32768 = 1 := by omega
      have h2 : s.accumulator * 2 % 65536 = 2 * (s.accumulator - 32768) := by
        omega
      rw [h1, h2, two_mul_or_one]
      omega
  · show u16 ((s.accumulator >>> 1) + ((s.accumulator &&& 1) <<< 15)) = _
    unfold specRotr16 u16
    simp only [Nat.shiftRight_eq_div_pow, Nat.and_one_is_mod, Nat.shiftLeft_eq]
    norm_num
    have hs : s.accumulator * 32768 % 65536 = s.accumulator % 2 * 32768 := by
      omega
    rw [hs]
    have hor : s.accumulator / 2 ||| s.accumulator % 2 * 32768 =
        s.accumulator / 2 + s.accumulator % 2 * 32768 := by
      rcases Nat.mod_two_eq_zero_or_one s.accumulator with h | h
      · rw [h]
        simp
      · rw [h, one_mul]
        have h3 : (32768 : Nat) = 2 ^ 15 := by norm_num
        rw [h3, or_two_pow_eq_add _ 15 (by omega)]
    rw [hor]
    omega

/-- C2 amended, witness at ACC = 32769 with bus 1 for the rotations and bus 7
for the untouched flags. -/
theorem C2_rotate_by_one_witness :
    (i021_rol 1 { st0 with accumulator := 32769 }).accumulator
      = specRotl16 1 ({ st0 with accumulator := 32769 } : State).accumulator ∧
    (i022_ror 1 { st0 with accumulator := 32769 }).accumulator
      = specRotr16 1 ({ st0 with accumulator := 32769 } : State).accumulator ∧
    (i021_rol 7 { st0 with accumulator := 32769 }).flag_register
      = ({ st0 with accumulator := 32769 } : State).flag_register ∧
    (i022_ror 7 { st0 with accumulator := 32769 }).flag_register
      = ({ st0 with accumulator := 32769 } : State).flag_register :=
  C2_rotate_by_one { st0 with accumulator := 32769 } 7 (by decide)

/-- C8: pushing A, pushing B, then popping twice is LIFO: the first pop
returns B, the second restores A, and the stack pointer returns to its
original value. -/
theorem C8_push_pop_lifo (s : State) (B : Nat) (ha : s.accumulator < 65536)
    (hsp : s.stack_pointer < 65536) (hB : B < 65536) :
    (i008_pop 0 (i007_push 0 { i007_push 0 s with
        accumulator := B })).accumulator = B ∧
    (i008_pop 0 (i008_pop 0 (i007_push 0 { i007_push 0 s with
        accumulator := B }))).accumulator = s.accumulator ∧
    (i008_pop 0 (i008_pop 0 (i007_push 0 { i007_push 0 s with
        accumulator := B }))).stack_pointer = s.stack_pointer := by
  simp only [i007_push, i008_pop, upd, u16, sub16]
  norm_num
  refine ⟨?_, ?_, ?_⟩ <;> (try split_ifs) <;> omega

/-- C8 witness: A = 123, B = 456, starting stack pointer 65535. -/
theorem C8_push_pop_lifo_witness :
    (i008_pop 0 (i007_push 0 { i007_push 0
        { st0 with accumulator := 123, stack_pointer := 65535 } with
        accumulator := 456 })).accumulator = 456 ∧
    (i008_pop 0 (i008_pop 0 (i007_push 0 { i007_push 0
        { st0 with accumulator := 123, stack_pointer := 65535 } with
        accumulator := 456 }))).accumulator = 123 ∧
    (i008_pop 0 (i008_pop 0 (i007_push 0 { i007_push 0
        { st0 with accumulator := 123, stack_pointer := 65535 } with
        accumulator := 456 }))).stack_pointer = 65535 :=
  C8_push_pop_lifo { st0 with accumulator := 123, stack_pointer := 65535 } 456
    (by decide) (by decide) (by decide)


lemma decide_and_one (x : Nat) : decide (x &&& 1 ≠ 0) = x.testBit 0 := by
  rw [Nat.and_one_is_mod, Nat.testBit_zero]
  rcases Nat.mod_two_eq_zero_or_one x with h | h <;> simp [h]

lemma parShiftFold_parity (a : Nat) :
    decide (parShiftFold a &&& 1 ≠ 0) = specParity16 a := by
  rw [decide_and_one]
  have hspec : specParity16 a =
      ((((((((((((((((false ^^ a.testBit 0) ^^ a.testBit 1) ^^ a.testBit 2) ^^ a.testBit 3) ^^ a.testBit 4) ^^ a.testBit 5) ^^ a.testBit 6) ^^ a.testBit 7) ^^ a.testBit 8) ^^ a.testBit 9) ^^ a.testBit 10) ^^ a.testBit 11) ^^ a.testBit 12) ^^ a.testBit 13) ^^ a.testBit 14) ^^ a.testBit 15) := rfl
  rw [hspec]
  unfold parShiftFold
  simp only [Nat.testBit_xor, Nat.testBit_shiftRight]
  norm_num

lemma sign_testBit (a : Nat) : decide (a &&& 32768 > 0) = a.testBit 15 := by
  have h : a &&& 32768 = (a.testBit 15).toNat * 32768 := by
    have h2 : (32768 : Nat) = 2 ^ 15 := by norm_num
    rw [h2, Nat.and_two_pow]
  cases htb : a.testBit 15 with
  | true => simp [h, htb]
  | false => simp [h, htb]

lemma checkFlags_flag_register (s : State) :
    (checkFlags s).flag_register =
      setFlag signBit (decide (s.accumulator &&& 32768 > 0))
        (setFlag zeroBit (decide (s.accumulator = 0))
          (setFlag parityBit (specParity16 s.accumulator) s.flag_register)) := by
  simp only [checkFlags, parShiftFold_parity]

lemma checkFlags_testBit (s : State) (j : Nat) (hj : j < 16) :
    (checkFlags s).flag_register.testBit j =
      if j = 3 then decide (s.accumulator &&& 32768 > 0)
      else if j = 2 then decide (s.accumulator = 0)
      else if j = 1 then specParity16 s.accumulator
      else s.flag_register.testBit j := by
  rw [checkFlags_flag_register, testBit_setFlag _ _ _ _ hj,
    testBit_setFlag _ _ _ _ hj, testBit_setFlag _ _ _ _ hj]
  simp only [signBit, zeroBit, parityBit]

lemma step_rom (s : State) : (step s).rom = (dispatched s).rom := rfl

lemma step_cache (s : State) : (step s).cache = (dispatched s).cache := rfl

lemma step_accumulator (s : State) :
    (step s).accumulator = (dispatched s).accumulator := rfl

lemma step_pointer_register (s : State) :
    (step s).pointer_register = (dispatched s).pointer_register := rfl

lemma step_stack (s : State) : (step s).stack = (dispatched s).stack := rfl

lemma step_address_stack (s : State) :
    (step s).address_stack = (dispatched s).address_stack := rfl

lemma step_ports (s : State) : (step s).ports = (dispatched s).ports := rfl

lemma step_stack_pointer (s : State) :
    (step s).stack_pointer = (dispatched s).stack_pointer := rfl

lemma step_address_stack_pointer (s : State) :
    (step s).address_stack_pointer = (dispatched s).address_stack_pointer := rfl

lemma step_program_counter (s : State) :
    (step s).program_counter = u16 ((dispatched s).program_counter + 1) := rfl

lemma step_instructions_executed (s : State) :
    (step s).instructions_executed = (dispatched s).instructions_executed + 1 := rfl

lemma step_running (s : State) : (step s).running = (dispatched s).running := rfl

lemma step_exit_code (s : State) :
    (step s).exit_code = (dispatched s).exit_code := rfl

lemma step_flag_register (s : State) :
    (step s).flag_register =
      (checkFlags { dispatched s with
        instructions_executed := (dispatched s).instructions_executed + 1
      }).flag_register := rfl

/-- C6: after every dispatched instruction the loop body recomputes the
parity flag as the XOR-fold of the 16 bits of the post-instruction
accumulator, the zero flag as its nullity test and the sign flag as its bit
15, while the carry, overflow and underflow bits pass through the refresh
unchanged from the dispatched instruction. -/
theorem C6_flag_refresh (s : State) :
    (step s).flag_register.testBit 1 = specParity16 (dispatched s).accumulator ∧
    (step s).flag_register.testBit 2 = decide ((dispatched s).accumulator = 0) ∧
    (step s).flag_register.testBit 3 = (dispatched s).accumulator.testBit 15 ∧
    (step s).flag_register.testBit 0 = (dispatched s).flag_register.testBit 0 ∧
    (step s).flag_register.testBit 4 = (dispatched s).flag_register.testBit 4 ∧
    (step s).flag_register.testBit 5 = (dispatched s).flag_register.testBit 5 := by
  refine ⟨?_, ?_, ?_, ?_, ?_, ?_⟩
  · rw [step_flag_register, checkFlags_testBit _ _ (by norm_num)]
    norm_num
  · rw [step_flag_register, checkFlags_testBit _ _ (by norm_num)]
    norm_num
  · rw [step_flag_register, checkFlags_testBit _ _ (by norm_num)]
    norm_num
    exact sign_testBit _
  · rw [step_flag_register, checkFlags_testBit _ _ (by norm_num)]
    norm_num
  · rw [step_flag_register, checkFlags_testBit _ _ (by norm_num)]
    norm_num
  · rw [step_flag_register, checkFlags_testBit _ _ (by norm_num)]
    norm_num

/-- C7: fetching an instruction whose decoded opcode has no table entry —
opcode 63 being one such — dispatches the trap handler, which stops the run
with exit code minus one, and the loop still counts the trapping
instruction; more generally every loop iteration counts exactly the one
instruction it dispatched. -/
theorem C7_unknown_opcode_trap (s : State)
    (h : instructionLookup (decodeOpcode (fetchWord s)) = none) :
    (step s).running = false ∧
    (step s).exit_code = -1 ∧
    (step s).instructions_executed = s.instructions_executed + 1 ∧
    instructionLookup 63 = none ∧
    (∀ (t : State), (step t).instructions_executed =
      t.instructions_executed + 1) := by
  have h63 : instructionLookup 63 = none := by
    unfold instructionLookup
    norm_num
  have hd : dispatched s = unknownInstructionHalt s := by
    unfold dispatched dispatch
    rw [h]
  refine ⟨?_, ?_, ?_, h63, ?_⟩
  · rw [step_running, hd]
    rfl
  · rw [step_exit_code, hd]
    rfl
  · rw [step_instructions_executed, hd]
    rfl
  · intro t
    rw [step_instructions_executed]
    exact congrArg (· + 1) (dispatch_executed _ _ t)

/-- C7 witness: a machine whose ROM words all decode to the unregistered
opcode 63. -/
theorem C7_unknown_opcode_trap_witness :
    (step stUnknown).running = false ∧
    (step stUnknown).exit_code = -1 ∧
    (step stUnknown).instructions_executed =
      stUnknown.instructions_executed + 1 ∧
    instructionLookup 63 = none ∧
    (∀ (t : State), (step t).instructions_executed =
      t.instructions_executed + 1) :=
  C7_unknown_opcode_trap stUnknown rfl

lemma checkFlags_flags_lt (t : State) (hf : t.flag_register < 64) :
    (checkFlags t).flag_register < 64 := by
  rw [checkFlags_flag_register]
  exact setFlag_lt_64 _ _ _ (by decide)
    (setFlag_lt_64 _ _ _ (by decide) (setFlag_lt_64 _ _ _ (by decide) hf))

lemma step_flags_lt (t : State) (hf : t.flag_register < 64) :
    (step t).flag_register < 64 := by
  rw [step_flag_register]
  apply checkFlags_flags_lt
  show (dispatched t).flag_register < 64
  exact dispatch_flags_lt _ _ _ hf

/-- C9: starting from the zero-initialized machine with any ROM, after any
number of loop iterations only the six named flag bits can be set: every
flag-register bit from 6 up reads false. -/
theorem C9_reserved_flag_bits (rom : Nat → Nat) (n b : Nat) (hb : 6 ≤ b) :
    Nat.testBit ((stepN n (initState rom)).flag_register) b = false := by
  have hN : ∀ (m : Nat) (t : State), t.flag_register < 64 →
      (stepN m t).flag_register < 64 := by
    intro m
    induction m with
    | zero => intro t ht; exact ht
    | succ k ih => intro t ht; exact ih (step t) (step_flags_lt t ht)
  apply Nat.testBit_lt_two_pow
  calc (stepN n (initState rom)).flag_register
      < 64 := hN n _ (by norm_num [initState])
    _ = 2 ^ 6 := by norm_num
    _ ≤ 2 ^ b := Nat.pow_le_pow_right (by norm_num) hb

/-- C9 witness: bit 6 after three iterations of an all-zero ROM machine. -/
theorem C9_reserved_flag_bits_witness :
    Nat.testBit ((stepN 3 (initState (fun _ => 0))).flag_register) 6 = false :=
  C9_reserved_flag_bits (fun _ => 0) 3 6 (by decide)

/-- C10: opcode 0 is the registered nop handler, dispatching it changes
nothing, and a full loop iteration over an all-zero ROM word only advances
the program counter, counts the instruction and refreshes parity, zero and
sign from the unchanged accumulator; it does not halt. -/
theorem C10_nop_frame (s : State) (h : s.rom (u16 s.program_counter) = 0) :
    instructionLookup 0 = some i000_nop ∧
    (∀ (v : Nat) (t : State), dispatch 0 v t = t) ∧
    (step s).accumulator = s.accumulator ∧
    (step s).pointer_register = s.pointer_register ∧
    (step s).cache = s.cache ∧
    (step s).stack = s.stack ∧
    (step s).address_stack = s.address_stack ∧
    (step s).ports = s.ports ∧
    (step s).stack_pointer = s.stack_pointer ∧
    (step s).address_stack_pointer = s.address_stack_pointer ∧
    (step s).exit_code = s.exit_code ∧
    (step s).running = s.running ∧
    (step s).program_counter = u16 (s.program_counter + 1) ∧
    (step s).instructions_executed = s.instructions_executed + 1 ∧
    (step s).flag_register = (checkFlags s).flag_register := by
  have hd : dispatched s = s := by
    unfold dispatched busOf
    rw [show fetchWord s = 0 from h]
    norm_num [decodeOpcode, decodeFlag, decodeValue]
    simp [dispatch, instructionLookup, i000_nop]
  refine ⟨rfl, fun v t => rfl, ?_, ?_, ?_, ?_, ?_, ?_, ?_, ?_, ?_, ?_, ?_, ?_, ?_⟩
  · rw [step_accumulator, hd]
  · rw [step_pointer_register, hd]
  · rw [step_cache, hd]
  · rw [step_stack, hd]
  · rw [step_address_stack, hd]
  · rw [step_ports, hd]
  · rw [step_stack_pointer, hd]
  · rw [step_address_stack_pointer, hd]
  · rw [step_exit_code, hd]
  · rw [step_running, hd]
  · rw [step_program_counter, hd]
  · rw [step_instructions_executed, hd]
  · rw [step_flag_register, hd]
    rfl

/-- C10 witness: the zero machine, whose ROM is entirely zero words. -/
theorem C10_nop_frame_witness :
    instructionLookup 0 = some i000_nop ∧
    (∀ (v : Nat) (t : State), dispatch 0 v t = t) ∧
    (step st0).accumulator = st0.accumulator ∧
    (step st0).pointer_register = st0.pointer_register ∧
    (step st0).cache = st0.cache ∧
    (step st0).stack = st0.stack ∧
    (step st0).address_stack = st0.address_stack ∧
    (step st0).ports = st0.ports ∧
    (step st0).stack_pointer = st0.stack_pointer ∧
    (step st0).address_stack_pointer = st0.address_stack_pointer ∧
    (step st0).exit_code = st0.exit_code ∧
    (step st0).running = st0.running ∧
    (step st0).program_counter = u16 (st0.program_counter + 1) ∧
    (step st0).instructions_executed = st0.instructions_executed + 1 ∧
    (step st0).flag_register = (checkFlags st0).flag_register :=
  C10_nop_frame st0 (by decide)


/-- C5: dispatching call with bus value N from program counter P pushes P at
the address-stack pointer, increments that pointer, and after the uniform
program-counter increment the next fetch reads ROM slot N; dispatching the
return placed there pops the address stack and the fetch after it reads ROM
slot P plus one (modulo 65536). -/
theorem C5_call_return (s : State) (N : Nat) (hN : N < 65536)
    (hpc : s.program_counter < 65536) (hasp : s.address_stack_pointer < 65536)
    (hcall : s.rom s.program_counter = encode 0 N 9)
    (hret : s.rom N = encode 0 0 10) :
    (step s).address_stack s.address_stack_pointer = s.program_counter ∧
    (step s).address_stack_pointer = (s.address_stack_pointer + 1) % 65536 ∧
    (step s).program_counter = N ∧
    (step (step s)).program_counter = (s.program_counter + 1) % 65536 ∧
    (step (step s)).address_stack_pointer = s.address_stack_pointer := by
  obtain ⟨hdf, hdv, hdo⟩ := encode_decode 0 N 9 (by norm_num) hN (by norm_num)
  have hfetch : fetchWord s = encode 0 N 9 := by
    unfold fetchWord u16
    rw [Nat.mod_eq_of_lt hpc, hcall]
  have hbus : busOf s = N := by
    unfold busOf
    rw [hfetch, hdf, hdv]
    norm_num
  have hd1 : dispatched s = i009_call N s := by
    unfold dispatched
    rw [hbus, hfetch, hdo]
    simp [dispatch, instructionLookup]
  have haddr1 : (step s).address_stack =
      upd s.address_stack (u16 s.address_stack_pointer) (u16 s.program_counter) := by
    rw [step_address_stack, hd1]
    rfl
  have hasp1 : (step s).address_stack_pointer =
      u16 (s.address_stack_pointer + 1) := by
    rw [step_address_stack_pointer, hd1]
    rfl
  have hpc1 : (step s).program_counter = N := by
    rw [step_program_counter, hd1]
    show u16 (sub16 N 1 + 1) = N
    unfold u16 sub16
    omega
  have hrom1 : (step s).rom = s.rom := by
    rw [step_rom, hd1]
    rfl
  have hfetch2 : fetchWord (step s) = encode 0 0 10 := by
    unfold fetchWord u16
    rw [hrom1, hpc1, Nat.mod_eq_of_lt hN, hret]
  obtain ⟨hdf2, hdv2, hdo2⟩ :=
    encode_decode 0 0 10 (by norm_num) (by norm_num) (by norm_num)
  have hbus2 : busOf (step s) = 0 := by
    unfold busOf
    rw [hfetch2, hdf2, hdv2]
    norm_num
  have hd2 : dispatched (step s) = i010_return 0 (step s) := by
    unfold dispatched
    rw [hbus2, hfetch2, hdo2]
    simp [dispatch, instructionLookup]
  have hidx : sub16 (step s).address_stack_pointer 1 =
      s.address_stack_pointer := by
    rw [hasp1]
    unfold sub16 u16
    omega
  refine ⟨?_, ?_, ?_, ?_, ?_⟩
  · rw [haddr1]
    unfold upd u16
    rw [Nat.mod_eq_of_lt hasp, Nat.mod_eq_of_lt hpc, if_pos rfl]
  · rw [hasp1]
    rfl
  · exact hpc1
  · rw [step_program_counter, hd2]
    show u16 (u16 ((step s).address_stack
      (sub16 (step s).address_stack_pointer 1)) + 1) = _
    rw [hidx, haddr1]
    unfold upd u16
    rw [Nat.mod_eq_of_lt hasp, if_pos rfl]
    omega
  · rw [step_address_stack_pointer, hd2]
    show sub16 (step s).address_stack_pointer 1 = _
    exact hidx

/-- C5 witness: call to 10 from slot 3 with a return at slot 10. -/
theorem C5_call_return_witness :
    (step stCallRet).address_stack 0 = 3 ∧
    (step stCallRet).address_stack_pointer = (0 + 1) % 65536 ∧
    (step stCallRet).program_counter = 10 ∧
    (step (step stCallRet)).program_counter = (3 + 1) % 65536 ∧
    (step (step stCallRet)).address_stack_pointer = 0 :=
  C5_call_return stCallRet 10 (by decide) (by decide) (by decide)
    (by decide) (by decide)

end QTEmu
